import Mathlib

/-!
Verification of the DDS CLI decorator layer (`cli_code/cli_decorators.py`):
per-file status tracking, break-on-fail cancellation propagation, streaming
checksum verification, S3 connection guarding and directory preparation.

The Python decorators are shallowly embedded as pure Lean functions.  Mutable
`self` state becomes explicit state records passed in and returned; the status
dictionary becomes a total map from file names to records; the wrapped inner
function becomes an explicit outcome value (its returned tuple), so that
"the inner operation is not invoked" is expressed as independence of the
result from that value; external primitives (SHA-256, boto3, the OS `mkdir`)
are parameters of the embedding.
-/

namespace DDS

/-! ## ChecksumVerifier: `checksum_verification_required` / `verify_checksum` -/

/-- Outcome of the wrapped chunk-producing function, as observed by
`verify_checksum`:
* `ok chunks` — the call returned and iterating the (lazy) result yields
  `chunks` without error;
* `consumeErr pre e` — the call returned but iterating the result raised
  `ValueError e` after yielding `pre`;
* `fail e` — the call itself raised `ChecksumError e`. -/
inductive ChunkSource where
  | ok (chunks : List (List Nat)) : ChunkSource
  | consumeErr (pre : List (List Nat)) (e : String) : ChunkSource
  | fail (e : String) : ChunkSource
deriving Repr, DecidableEq

/-- Embedding of `verify_checksum` (the wrapper produced by
`checksum_verification_required`).  `hash` is the external SHA-256
hex-digest primitive applied to the concatenation of all consumed chunks
(`hashlib.sha256` updated chunk by chunk).  Mirrors the source control flow:
`done, message = (False, "")`; run the function; if `do_verify`, consume the
chunks and set `message` on a `ValueError`, otherwise compare the digest,
setting `message` on mismatch and `done = True` on match; then the *outer*
`try`'s `else:` sets `done = True` whenever no `ChecksumError` was raised. -/
def verify_checksum (hash : List Nat → String) (correct_checksum : String)
    (do_verify : Bool) (src : ChunkSource) : Bool × String :=
  match src with
  | .fail e => (false, e)
  | .consumeErr _ e =>
      if do_verify then
        -- inner `except ValueError`: message set, then outer `else` runs
        (true, e)
      else (true, "")
  | .ok chunks =>
      if do_verify then
        let checksum_digest := hash chunks.flatten
        if checksum_digest ≠ correct_checksum then
          -- message set to the mismatch text, but the outer `else` still
          -- sets `done = True` because no exception escaped
          (true, "Checksum verification failed. File compromised.")
        else (true, "")
      else (true, "")

/-! ## FileStatusStore and OperationGuard: `verify_proceed` / `wrapped` -/

/-- One entry of `self.status`: the per-file flags touched by
`verify_proceed` (`"started"`, `"cancel"`, `"message"`). -/
structure FileRecord where
  started : Bool
  cancel : Bool
  message : String
deriving Repr, DecidableEq

/-- The status dictionary `self.status`, as a total map from file name to
record (every file the orchestrator registered has an entry). -/
def Store : Type := String → FileRecord

/-- The fields of `self` read by `verify_proceed`. -/
structure GuardState where
  stop_doing : Bool
  break_on_fail : Bool
  status : Store

/-- The bulk-cancellation message
`f"Cancelling upload due to file '{file}'. Break-on-fail specified in call."`. -/
def cancelMessage (file : String) : String :=
  "Cancelling upload due to file '" ++ file
    ++ "'. Break-on-fail specified in call."

/-- Embedding of `verify_proceed`'s `wrapped`.  `inner` is the `(ok, message)`
tuple the wrapped function would return; the result pairs the returned
boolean with the status store after the call.  Mirrors the source: return
`False` untouched on `stop_doing` or on an already-cancelled file; otherwise
mark the file started, run the function; on failure mark the file cancelled
with the failure message and, under `break_on_fail`, cancel every other file
that is neither cancelled nor started, with `cancelMessage file`. -/
def verify_proceed (s : GuardState) (file : String) (inner : Bool × String) :
    Bool × Store :=
  if s.stop_doing then (false, s.status)
  else if (s.status file).cancel then (false, s.status)
  else
    let st₁ : Store := fun x =>
      if x = file then { s.status x with started := true } else s.status x
    let (ok_to_proceed, message) := inner
    if ok_to_proceed then (true, st₁)
    else
      let st₂ : Store := fun x =>
        if x = file then { st₁ x with cancel := true, message := message }
        else st₁ x
      if s.break_on_fail then
        let bulk := cancelMessage file
        (false, fun x =>
          if ¬(st₂ x).cancel ∧ ¬(st₂ x).started ∧ x ≠ file then
            { st₂ x with cancel := true, message := bulk }
          else st₂ x)
      else (false, st₂)

/-! ## SubStatusGuard: `update_status` / `wrapped` -/

/-- Per-sub-operation status dict `{"started": ..., "done": ...}`. -/
structure SubRec where
  started : Bool
  done : Bool
deriving Repr, DecidableEq

/-- The part of a file's status record read and written by `update_status`:
the sub-operation records keyed by function name (`none` = key absent from
the dict) and the `"failed_op"` entry. -/
structure FileStat where
  subops : String → Option SubRec
  failed_op : Option String

/-- The status dictionary as seen by `update_status`. -/
def UStore : Type := String → FileStat

/-- `self.status[file][name].update({...})`: replace the sub-operation
record under key `name` of `file`'s entry. -/
def setSubOp (store : UStore) (file name : String) (r : SubRec) : UStore :=
  fun x =>
    if x = file then
      { store x with
        subops := fun n => if n = name then some r else (store x).subops n }
    else store x

/-- `self.status[file]["failed_op"] = name`. -/
def setFailedOp (store : UStore) (file name : String) : UStore :=
  fun x =>
    if x = file then { store x with failed_op := some name } else store x

/-- Embedding of `update_status`'s `wrapped` for one invocation.  `name` is
`func.__name__`, `res` the `(ok_to_continue, message)` prefix of the wrapped
function's return tuple (the `*_` extras are discarded by the decorator).
Returns the store after the call plus either the raised exception's message
(`Except.error`, raised before any mutation) or the returned pair. -/
def update_status_step (name file : String) (res : Bool × String)
    (store : UStore) : UStore × Except String (Bool × String) :=
  if name ∉ ["put", "add_file_db", "get", "update_db"] then
    (store,
     .error ("The function " ++ name ++ " cannot be used with this decorator."))
  else
    match (store file).subops name with
    | none => (store, .error ("No status found for function " ++ name ++ "."))
    | some rec =>
        if res.1 = false then
          (setFailedOp (setSubOp store file name { rec with started := true })
             file name,
           .ok res)
        else
          (setSubOp (setSubOp store file name { rec with started := true })
             file name { rec with started := true, done := true },
           .ok res)

/-! ## RemoteSession: `connect_cloud` / `init_resource` -/

/-- The fields of `self` touched by `init_resource`: the endpoint `url`, the
`keys` dict (access key, secret key), the `message` field and the stored
session `resource` (of external handle type `σ`). -/
structure CloudState (σ : Type) where
  url : Option String
  keys : Option (String × String)
  message : String
  resource : Option σ

/-- Embedding of `connect_cloud`'s `init_resource`.  `attempt` is the outcome
of `boto3.session.Session().resource(...)`: a handle, or the message of a
raised `Boto3Error`/`BotoCoreError`.  `inner` is the wrapped function acting
on `self`; its Python return value is an `Option ρ` (`none` = Python
`None`).  On error, `self.url`, `self.keys`, `self.message` are reassigned,
the resource call's handle is never stored, the wrapped function is not
invoked, and the decorator body falls off the end — returning `none`. -/
def init_resource {σ ρ : Type} (attempt : Except String σ)
    (inner : CloudState σ → CloudState σ × Option ρ) (s : CloudState σ) :
    CloudState σ × Option ρ :=
  match attempt with
  | .error err =>
      ({ s with url := none, keys := none,
                message := "S3 connection failed: " ++ err }, none)
  | .ok session => inner { s with resource := some session }

/-! ## Directory preparation: `subpath_required` / `check_and_create` -/

/-- The filesystem as the set of existing paths (`full_subpath.exists()`). -/
def FS : Type := String → Bool

/-- `self.filehandler.local_destination / pathlib.Path(file_info["subpath"])`. -/
def full_subpath (local_destination subpath : String) : String :=
  local_destination ++ "/" ++ subpath

/-- Embedding of `subpath_required`'s `check_and_create`.  `mkdir` is the
external `Path.mkdir(parents=True, exist_ok=True)` call: a new filesystem
state, or the message of a raised `OSError`.  If the path exists, the
wrapped function (outcome `inner`) runs directly; otherwise the directory is
created first, an `OSError` short-circuiting with `(False, str(err))`. -/
def check_and_create (mkdir : FS → String → Except String FS)
    (local_destination subpath : String) (inner : Bool × String) (fs : FS) :
    (Bool × String) × FS :=
  let p := full_subpath local_destination subpath
  if fs p = true then (inner, fs)
  else
    match mkdir fs p with
    | .error err => ((false, err), fs)
    | .ok fs₁ => (inner, fs₁)

/-- A `mkdir` model for witnesses: creating a directory always succeeds and
adds the path to the filesystem. -/
def addPathMkdir : FS → String → Except String FS :=
  fun g p => .ok (fun q => if q = p then true else g q)

/-- One guarded sub-operation attempt, as the orchestrator would issue it:
which function, on which file, and the `(ok, message)` outcome the wrapped
function reports. -/
structure OpEvent where
  name : String
  file : String
  ok : Bool
  msg : String

/-- A sequence of guarded sub-operation invocations, threaded through the
status store; `none` when some invocation raised (the run aborts). -/
def runSeq : List OpEvent → UStore → Option UStore
  | [], store => some store
  | ev :: rest, store =>
      match update_status_step ev.name ev.file (ev.ok, ev.msg) store with
      | (_, .error _) => none
      | (st₁, .ok _) => runSeq rest st₁

/-- The name of the most recent failing attempt for file `f` in the
sequence, if any. -/
def lastFailOp : List OpEvent → String → Option String
  | [], _ => none
  | ev :: rest, f =>
      match lastFailOp rest f with
      | some n => some n
      | none => if ev.file = f ∧ ev.ok = false then some ev.name else none

/-- The outcome of the most recent attempt for file `f`, if any attempt
targeted `f`. -/
def lastOutcome : List OpEvent → String → Option Bool
  | [], _ => none
  | ev :: rest, f =>
      match lastOutcome rest f with
      | some b => some b
      | none => if ev.file = f then some ev.ok else none

end DDS

/-- C1: with `do_verify = true` and a chunk stream whose digest differs from
the expected one, the code does NOT return a failure result: the outer
`try/except/else` sets `done = True` because no exception was raised, so the
mismatch comes back as `(True, "Checksum verification failed. File
compromised.")`, contradicting the spec's `(false, message)`. -/
theorem verify_checksum_mismatch_returns_true (hash : List Nat → String)
    (d : String) (chunks : List (List Nat)) (h : hash chunks.flatten ≠ d) :
    DDS.verify_checksum hash d true (.ok chunks) =
      (true, "Checksum verification failed. File compromised.") := by
  simp [DDS.verify_checksum, h]

/-- Witness for C1: a concrete hash primitive, expected digest and chunk list
with a digest mismatch, evaluated through the theorem. -/
theorem verify_checksum_mismatch_returns_true_witness :
    DDS.verify_checksum (fun _ => "ffff") "abcd" true (.ok [[0, 1], [2]]) =
      (true, "Checksum verification failed. File compromised.") :=
  verify_checksum_mismatch_returns_true (fun _ => "ffff") "abcd" [[0, 1], [2]]
    (by decide)

/-- C4: invoking the operation guard on a file whose record has
`cancel = true` returns `false` and leaves the whole status store unchanged;
the result does not depend on `inner`, i.e. the wrapped operation is never
invoked.  (This holds whether or not `stop_doing` is set: both early returns
leave the store untouched.) -/
theorem verify_proceed_cancelled_noop (s : DDS.GuardState) (file : String)
    (inner : Bool × String) (h : (s.status file).cancel = true) :
    DDS.verify_proceed s file inner = (false, s.status) := by
  unfold DDS.verify_proceed
  by_cases hs : s.stop_doing <;> simp [hs, h]

/-- Witness for C4: a store whose every record is cancelled, guard invoked on
file `"a"` with a succeeding inner operation. -/
theorem verify_proceed_cancelled_noop_witness :
    DDS.verify_proceed ⟨false, false, fun _ => ⟨false, true, "m"⟩⟩ "a"
      (true, "") = (false, fun _ => ⟨false, true, "m"⟩) :=
  verify_proceed_cancelled_noop ⟨false, false, fun _ => ⟨false, true, "m"⟩⟩
    "a" (true, "") rfl

/-- C2: with `a`, `b`, `c` all unstarted and uncancelled and the operation on
`a` failing: under `break_on_fail = true` the guard returns `false`, `b` and
`c` are cancelled carrying the bulk-cancellation message, and `a` is
cancelled carrying the original failure message; under
`break_on_fail = false` only `a`'s record changes, every other file keeps
its record verbatim. -/
theorem verify_proceed_break_on_fail_scope (status : DDS.Store)
    (a b c msg : String) (hba : b ≠ a) (hca : c ≠ a)
    (has : (status a).started = false) (hac : (status a).cancel = false)
    (hbs : (status b).started = false) (hbc : (status b).cancel = false)
    (hcs : (status c).started = false) (hcc : (status c).cancel = false) :
    ((DDS.verify_proceed ⟨false, true, status⟩ a (false, msg)).1 = false ∧
     (DDS.verify_proceed ⟨false, true, status⟩ a (false, msg)).2 a =
       { status a with started := true, cancel := true, message := msg } ∧
     (DDS.verify_proceed ⟨false, true, status⟩ a (false, msg)).2 b =
       { status b with cancel := true, message := DDS.cancelMessage a } ∧
     (DDS.verify_proceed ⟨false, true, status⟩ a (false, msg)).2 c =
       { status c with cancel := true, message := DDS.cancelMessage a }) ∧
    ((DDS.verify_proceed ⟨false, false, status⟩ a (false, msg)).1 = false ∧
     (DDS.verify_proceed ⟨false, false, status⟩ a (false, msg)).2 a =
       { status a with started := true, cancel := true, message := msg } ∧
     ∀ x, x ≠ a →
       (DDS.verify_proceed ⟨false, false, status⟩ a (false, msg)).2 x =
         status x) := by
  unfold DDS.verify_proceed
  refine ⟨⟨by simp [hac], ?_, ?_, ?_⟩, ⟨by simp [hac], ?_, ?_⟩⟩
  · simp [hac]
  · simp [hac, hba, hbs, hbc]
  · simp [hac, hca, hcs, hcc]
  · simp [hac]
  · intro x hx
    simp [hac, hx]

/-- Witness for C2: three distinct files over an all-fresh store, the
operation on `"a"` failing with message `"boom"`. -/
theorem verify_proceed_break_on_fail_scope_witness :
    ((DDS.verify_proceed ⟨false, true, fun _ => ⟨false, false, ""⟩⟩ "a"
        (false, "boom")).1 = false ∧
     (DDS.verify_proceed ⟨false, true, fun _ => ⟨false, false, ""⟩⟩ "a"
        (false, "boom")).2 "a" = ⟨true, true, "boom"⟩ ∧
     (DDS.verify_proceed ⟨false, true, fun _ => ⟨false, false, ""⟩⟩ "a"
        (false, "boom")).2 "b" = ⟨false, true, DDS.cancelMessage "a"⟩ ∧
     (DDS.verify_proceed ⟨false, true, fun _ => ⟨false, false, ""⟩⟩ "a"
        (false, "boom")).2 "c" = ⟨false, true, DDS.cancelMessage "a"⟩) ∧
    ((DDS.verify_proceed ⟨false, false, fun _ => ⟨false, false, ""⟩⟩ "a"
        (false, "boom")).1 = false ∧
     (DDS.verify_proceed ⟨false, false, fun _ => ⟨false, false, ""⟩⟩ "a"
        (false, "boom")).2 "a" = ⟨true, true, "boom"⟩ ∧
     ∀ x, x ≠ "a" →
       (DDS.verify_proceed ⟨false, false, fun _ => ⟨false, false, ""⟩⟩ "a"
          (false, "boom")).2 x = ⟨false, false, ""⟩) :=
  verify_proceed_break_on_fail_scope (fun _ => ⟨false, false, ""⟩)
    "a" "b" "c" "boom" (by decide) (by decide) rfl rfl rfl rfl rfl rfl

/-- C5: when the operation on an uncancelled file `f` fails under
`break_on_fail`, the bulk-cancellation step leaves every other file that was
already started or already cancelled entirely unchanged, and the triggering
file itself ends up started and cancelled with the *original* failure
message, untouched by the bulk pass. -/
theorem verify_proceed_bulk_cancel_frame (status : DDS.Store) (f msg : String)
    (hcan : (status f).cancel = false) :
    (∀ x, x ≠ f → (status x).started = true ∨ (status x).cancel = true →
      (DDS.verify_proceed ⟨false, true, status⟩ f (false, msg)).2 x =
        status x) ∧
    (DDS.verify_proceed ⟨false, true, status⟩ f (false, msg)).2 f =
      { status f with started := true, cancel := true, message := msg } := by
  unfold DDS.verify_proceed
  constructor
  · intro x hx hor
    rcases hor with h | h <;> simp [hcan, hx, h]
  · simp [hcan]

/-- Witness for C5: a store holding a started file `"s"`, a cancelled file
`"c"` and a fresh triggering file `"f"` whose operation fails. -/
theorem verify_proceed_bulk_cancel_frame_witness :
    (DDS.verify_proceed
        ⟨false, true, fun x =>
          if x = "s" then ⟨true, false, ""⟩
          else if x = "c" then ⟨false, true, "old"⟩
          else ⟨false, false, ""⟩⟩ "f" (false, "err")).2 "s" =
      ⟨true, false, ""⟩ ∧
    (DDS.verify_proceed
        ⟨false, true, fun x =>
          if x = "s" then ⟨true, false, ""⟩
          else if x = "c" then ⟨false, true, "old"⟩
          else ⟨false, false, ""⟩⟩ "f" (false, "err")).2 "c" =
      ⟨false, true, "old"⟩ ∧
    (DDS.verify_proceed
        ⟨false, true, fun x =>
          if x = "s" then ⟨true, false, ""⟩
          else if x = "c" then ⟨false, true, "old"⟩
          else ⟨false, false, ""⟩⟩ "f" (false, "err")).2 "f" =
      ⟨true, true, "err"⟩ :=
  have h := verify_proceed_bulk_cancel_frame
    (fun x =>
      if x = "s" then ⟨true, false, ""⟩
      else if x = "c" then ⟨false, true, "old"⟩
      else ⟨false, false, ""⟩) "f" "err" rfl
  ⟨h.1 "s" (by decide) (Or.inl rfl), h.1 "c" (by decide) (Or.inr rfl), h.2⟩

namespace DDS

theorem setSubOp_failed_op (store : UStore) (file name : String) (r : SubRec)
    (x : String) :
    (setSubOp store file name r x).failed_op = (store x).failed_op := by
  unfold setSubOp
  split <;> rfl

theorem setFailedOp_failed_op (store : UStore) (file name x : String) :
    (setFailedOp store file name x).failed_op =
      if x = file then some name else (store x).failed_op := by
  unfold setFailedOp
  split <;> rfl

/-- Effect of one `update_status` invocation on the `failed_op` entry: set to
the operation name on the invoked file when the attempt failed, untouched
everywhere else.  (Success does *not* clear it.) -/
theorem update_status_step_failed_op (name file : String) (res : Bool × String)
    (store st₁ : UStore) (r : Bool × String)
    (h : update_status_step name file res store = (st₁, .ok r)) (f : String) :
    (st₁ f).failed_op =
      if f = file ∧ res.1 = false then some name else (store f).failed_op := by
  unfold update_status_step at h
  split at h
  · simp at h
  · split at h
    · simp at h
    · split at h
      · rename_i rec hres
        simp only [Prod.mk.injEq, Except.ok.injEq] at h
        obtain ⟨hst, -⟩ := h
        subst hst
        rw [setFailedOp_failed_op, setSubOp_failed_op]
        by_cases hf : f = file <;> simp [hf, hres]
      · rename_i rec hres
        simp only [Prod.mk.injEq, Except.ok.injEq] at h
        obtain ⟨hst, -⟩ := h
        subst hst
        rw [setSubOp_failed_op, setSubOp_failed_op]
        simp [hres]

end DDS

/-- C3 amended: after a sequence of sub-operation invocations that completes
without a contract violation, a file's `failed_op` names the *most recent
failing* attempt for that file if one occurred, and otherwise keeps its
initial value — a later successful attempt does not clear it. -/
theorem update_status_failed_op_tracks_last_failure (evs : List DDS.OpEvent)
    (store : DDS.UStore) (f : String) :
    (DDS.runSeq evs store).map (fun st => (st f).failed_op) =
      (DDS.runSeq evs store).map
        (fun _ => (DDS.lastFailOp evs f).elim ((store f).failed_op) some) := by
  induction evs generalizing store with
  | nil => rfl
  | cons ev rest ih =>
    rcases hstep : DDS.update_status_step ev.name ev.file (ev.ok, ev.msg) store
      with ⟨st₁, exc⟩
    cases exc with
    | error e => simp [DDS.runSeq, hstep]
    | ok r =>
      have hfop := DDS.update_status_step_failed_op ev.name ev.file
        (ev.ok, ev.msg) store st₁ r hstep f
      simp only [DDS.runSeq, hstep]
      rw [ih st₁]
      rcases hlast : DDS.lastFailOp rest f with _ | n
      · simp only [DDS.lastFailOp, hlast, Option.elim, hfop]
        by_cases hc : ev.file = f ∧ ev.ok = false
        · simp [hc, hc.1, hc.2]
        · by_cases hf : f = ev.file ∧ ev.ok = false
          · exact absurd ⟨hf.1.symm, hf.2⟩ hc
          · simp [hc, hf]
      · simp [DDS.lastFailOp, hlast]

/-- C3 counterexample: file `"f"` fails its `"put"` attempt and then
succeeds at `"put"`; the most recent attempt for `"f"` succeeded, yet
`failed_op` is still `some "put"` — the claim's "if and only if the most
recent attempt returned failure" demands it be unset. -/
theorem update_status_failed_op_not_cleared_cex :
    DDS.lastOutcome
        [⟨"put", "f", false, "e"⟩, ⟨"put", "f", true, ""⟩] "f" = some true ∧
    (DDS.runSeq [⟨"put", "f", false, "e"⟩, ⟨"put", "f", true, ""⟩]
        (fun _ =>
          ⟨fun n => if n = "put" then some ⟨false, false⟩ else none,
           none⟩)).map (fun st => (st "f").failed_op) = some (some "put") := by
  constructor
  · rfl
  · rfl

/-- C7: invoking `update_status` with a function name outside
`["put", "add_file_db", "get", "update_db"]` raises (an `Except.error`, never
a per-file `(false, message)` result) and returns the status store exactly as
it was, for every store, file and inner outcome. -/
theorem update_status_unrecognized_raises (name file : String)
    (res : Bool × String) (store : DDS.UStore)
    (h : name ∉ ["put", "add_file_db", "get", "update_db"]) :
    DDS.update_status_step name file res store =
      (store,
       .error ("The function " ++ name ++
         " cannot be used with this decorator.")) := by
  unfold DDS.update_status_step
  simp [h]

/-- Witness for C7: the unrecognized name `"remove"` on an empty store. -/
theorem update_status_unrecognized_raises_witness :
    DDS.update_status_step "remove" "f" (true, "")
        (fun _ => ⟨fun _ => none, none⟩) =
      ((fun _ => ⟨fun _ => none, none⟩),
       .error "The function remove cannot be used with this decorator.") :=
  update_status_unrecognized_raises "remove" "f" (true, "")
    (fun _ => ⟨fun _ => none, none⟩) (by decide)

/-- C6: with `do_verify = false` the result depends only on the inner
operation's own success or failure, never on the produced chunks and never on
the hash primitive or expected digest: two successful runs agree whatever
their chunk sequences, a run whose stream would error on consumption behaves
like a clean success (the stream is never consumed), and a failing run
returns `(false, e)` for every hash and digest. -/
theorem verify_checksum_no_verify_bypass :
    (∀ (h₁ h₂ : List Nat → String) (d₁ d₂ : String)
        (cs₁ cs₂ : List (List Nat)),
      DDS.verify_checksum h₁ d₁ false (.ok cs₁) =
        DDS.verify_checksum h₂ d₂ false (.ok cs₂)) ∧
    (∀ (h₁ h₂ : List Nat → String) (d₁ d₂ : String)
        (pre : List (List Nat)) (e : String) (cs : List (List Nat)),
      DDS.verify_checksum h₁ d₁ false (.consumeErr pre e) =
        DDS.verify_checksum h₂ d₂ false (.ok cs)) ∧
    (∀ (h₁ : List Nat → String) (d₁ e : String),
      DDS.verify_checksum h₁ d₁ false (.fail e) = (false, e)) := by
  refine ⟨fun _ _ _ _ _ _ => rfl, fun _ _ _ _ _ _ _ => rfl, fun _ _ _ => rfl⟩

/-- C8: if the connection attempt raises, the held endpoint URL and keys are
cleared, the descriptive error message is stored, and the wrapped operation
is never invoked (the result is the same for every `inner`); if the session
is established, the handle is stored in `resource` and the wrapped operation
runs on that updated state. -/
theorem connect_cloud_guard {σ ρ : Type} :
    (∀ (err : String) (inner : DDS.CloudState σ → DDS.CloudState σ × Option ρ)
        (s : DDS.CloudState σ),
      DDS.init_resource (.error err) inner s =
        ({ s with url := none, keys := none,
                  message := "S3 connection failed: " ++ err }, none)) ∧
    (∀ (sess : σ) (inner : DDS.CloudState σ → DDS.CloudState σ × Option ρ)
        (s : DDS.CloudState σ),
      DDS.init_resource (.ok sess) inner s =
        inner { s with resource := some sess }) :=
  ⟨fun _ _ _ => rfl, fun _ _ _ => rfl⟩

/-- C10: on a failed connection attempt `init_resource` falls off the end of
the decorator body and returns Python `None` — never an `(ok, message)`
tuple; the error text lives only in the state's `message` field.  Hence
there is an inner operation (one that itself returns `None`) for which the
caller sees the identical return value on success and on failure. -/
theorem connect_cloud_failure_returns_none {σ ρ : Type} :
    (∀ (err : String) (inner : DDS.CloudState σ → DDS.CloudState σ × Option ρ)
        (s : DDS.CloudState σ),
      (DDS.init_resource (.error err) inner s).2 = none ∧
      (DDS.init_resource (.error err) inner s).1.message =
        "S3 connection failed: " ++ err) ∧
    (∃ inner : DDS.CloudState σ → DDS.CloudState σ × Option ρ,
      ∀ (sess : σ) (s : DDS.CloudState σ) (err : String),
        (DDS.init_resource (.ok sess) inner s).2 =
          (DDS.init_resource (.error err) inner s).2) :=
  ⟨fun _ _ _ => ⟨rfl, rfl⟩, ⟨fun s => (s, none), fun _ _ _ => rfl⟩⟩

/-- C9: (idempotence) if a first guarded call succeeds in making the path
exist — it existed already or `mkdir` succeeded — then that call ran the
wrapped operation, and a second call on the resulting filesystem runs its
wrapped operation directly: no creation is attempted (the result holds for
*every* second `mkdir`, even an always-failing one) and the filesystem is
unchanged.  (Short-circuit) if the path is absent and `mkdir` raises, the
guard returns `(False, str(err))` without invoking the wrapped operation
and leaves the filesystem unchanged. -/
theorem subpath_required_props :
    (∀ (mkdir mkdir₂ : DDS.FS → String → Except String DDS.FS)
        (dest sub : String) (inner inner₂ : Bool × String) (fs : DDS.FS),
      (∀ (g : DDS.FS) (p : String) (g₁ : DDS.FS),
          mkdir g p = .ok g₁ → g₁ p = true) →
      (fs (DDS.full_subpath dest sub) = true ∨
        ∃ fs₁, mkdir fs (DDS.full_subpath dest sub) = .ok fs₁) →
      (DDS.check_and_create mkdir dest sub inner fs).1 = inner ∧
      DDS.check_and_create mkdir₂ dest sub inner₂
          (DDS.check_and_create mkdir dest sub inner fs).2 =
        (inner₂, (DDS.check_and_create mkdir dest sub inner fs).2)) ∧
    (∀ (mkdir : DDS.FS → String → Except String DDS.FS)
        (dest sub err : String) (inner : Bool × String) (fs : DDS.FS),
      fs (DDS.full_subpath dest sub) = false →
      mkdir fs (DDS.full_subpath dest sub) = .error err →
      DDS.check_and_create mkdir dest sub inner fs = ((false, err), fs)) := by
  constructor
  · intro mkdir mkdir₂ dest sub inner inner₂ fs hmk hfirst
    by_cases hp : fs (DDS.full_subpath dest sub) = true
    · constructor
      · simp [DDS.check_and_create, hp]
      · simp [DDS.check_and_create, hp]
    · rcases hfirst with h | ⟨fs₁, hok⟩
      · exact absurd h hp
      · have hex : fs₁ (DDS.full_subpath dest sub) = true :=
          hmk fs (DDS.full_subpath dest sub) fs₁ hok
        constructor
        · simp [DDS.check_and_create, hp, hok]
        · simp [DDS.check_and_create, hp, hok, hex]
  · intro mkdir dest sub err inner fs hp herr
    simp [DDS.check_and_create, hp, herr]

/-- Witness for C9: a fresh filesystem, an always-succeeding first `mkdir`,
an always-failing second `mkdir`, and an always-failing `mkdir` for the
short-circuit part. -/
theorem subpath_required_props_witness :
    ((DDS.check_and_create DDS.addPathMkdir "base" "d" (true, "ok")
        (fun _ => false)).1 = (true, "ok") ∧
     DDS.check_and_create (fun _ _ => .error "boom") "base" "d" (true, "ok2")
         (DDS.check_and_create DDS.addPathMkdir "base" "d" (true, "ok")
           (fun _ => false)).2 =
       ((true, "ok2"),
        (DDS.check_and_create DDS.addPathMkdir "base" "d" (true, "ok")
          (fun _ => false)).2)) ∧
    DDS.check_and_create (fun _ _ => .error "denied") "base" "d" (true, "ok")
        (fun _ => false) = ((false, "denied"), fun _ => false) :=
  ⟨subpath_required_props.1 DDS.addPathMkdir (fun _ _ => .error "boom")
      "base" "d" (true, "ok") (true, "ok2") (fun _ => false)
      (fun g p g₁ hh => by
        cases hh
        simp)
      (Or.inr ⟨_, rfl⟩),
   subpath_required_props.2 (fun _ _ => .error "denied") "base" "d" "denied"
     (true, "ok") (fun _ => false) rfl rfl⟩
